import Mathlib

set_option maxRecDepth 4000
set_option maxHeartbeats 1000000

/-!
Shallow embedding of the moderation core of the tg_bot repository
(config.py, db_client.py, filters.py, middlewares.py, main.py).

Strings are modelled as lists of characters (`List Char`); Python's
`str.lower()` is modelled by `Char.toLower` (ASCII case folding, which is
exact for all inputs appearing in the claims).  Fallible store and
transport operations are modelled by explicit outcome flags: each run of
an operation is parameterised by whether its underlying store read/write
or chat-transport call succeeds, and the embedded function computes
exactly what the Python `try`/`except` structure does in each case.
-/

namespace TgBot

/-! ## Persistent store (the `users` table of db_client.py)

Only the `warning_count` column is relevant to the claims; the store is a
total map from user id to its persisted warning count (0 for absent rows,
matching `_get_warning_count`, which returns 0 when no row is found). -/

structure Store where
  warnings : Nat → Nat

/-- Writes the warning count of one user, leaving all other rows unchanged
(models the `upsert`/`update` on the `users` table keyed by `user_id`). -/
def setWarnings (s : Store) (uid n : Nat) : Store :=
  { warnings := fun u => if u = uid then n else s.warnings u }

/-- Outcome flags for the two store round trips of a warning operation:
whether the `select` read succeeds and whether the `upsert`/`update` write
succeeds.  A failing call raises inside `asyncio.to_thread` and is caught
by the surrounding `except` block of the db_client method. -/
structure DbEnv where
  readOk : Bool
  writeOk : Bool

/-- Embeds `Database._get_warning_count` (db_client.py:48-64): returns the
stored count on a successful read and 0 when the read raises (the
`except` branch returns 0). -/
def getWarningCount (env : DbEnv) (uid : Nat) (s : Store) : Nat :=
  if env.readOk then s.warnings uid else 0

/-- Embeds `Database.add_warning` (db_client.py:66-83): read the current
count, compute `new_count = current_count + 1`, attempt the write; on
write success the store holds `new_count` and `new_count` is returned; on
write failure the store is unchanged and `current_count` is returned. -/
def addWarning (env : DbEnv) (uid : Nat) (s : Store) : Store × Nat :=
  let currentCount := getWarningCount env uid s
  let newCount := currentCount + 1
  if env.writeOk then (setWarnings s uid newCount, newCount)
  else (s, currentCount)

/-- Embeds `Database.remove_warning` (db_client.py:85-100): the source
computes `max(0, current_count - 1)`; on `Nat` the truncated subtraction
`currentCount - 1` is exactly that clamp. -/
def removeWarning (env : DbEnv) (uid : Nat) (s : Store) : Store × Nat :=
  let currentCount := getWarningCount env uid s
  let newCount := currentCount - 1
  if env.writeOk then (setWarnings s uid newCount, newCount)
  else (s, currentCount)

/-- Embeds `Database.reset_warnings` (db_client.py:102-112): sets the
count to 0 when the update succeeds; a failing update is swallowed and
the store is unchanged. -/
def resetWarnings (resetOk : Bool) (uid : Nat) (s : Store) : Store :=
  if resetOk then setWarnings s uid 0 else s

/-! ## Configuration (config.py) -/

/-- Embeds the `Settings` fields used by the moderation core
(config.py:11-12): the administrator id list and the `MAX_WARNINGS`
threshold (validated positive, default 3). -/
structure Config where
  adminIds : List Nat
  maxWarnings : Nat

/-! ## Text model, word matching and the URL pattern (main.py) -/

/-- Embeds Python `str.lower()` on a character-list string (ASCII case
folding). -/
def pyLower (s : List Char) : List Char := s.map Char.toLower

/-- Embeds the regex word class `\w` (ASCII model): letters, digits, or
underscore. -/
def isWordChar (c : Char) : Bool := c.isAlphanum || c == '_'

/-- Character at position `i`, viewed through `isWordChar`; positions
outside the string count as non-word, as regex boundary semantics do. -/
def wordCharAt (t : List Char) (i : Nat) : Bool :=
  match t.get? i with
  | some c => isWordChar c
  | none => false

/-- Embeds the regex word boundary `\b` at position `i` of `t`: the
boundary holds exactly when the word-character statuses on the two sides
of the position differ (positions before the start and past the end count
as non-word). -/
def boundary (t : List Char) (i : Nat) : Bool :=
  (if i = 0 then false else wordCharAt t (i - 1)) != wordCharAt t i

/-- Literal match of `w` at the head of `t` (the word is passed through
`re.escape` in the source, so it matches only literally). -/
def matchAt : List Char → List Char → Bool
  | [], _ => true
  | _ :: _, [] => false
  | c :: w, d :: t => c == d && matchAt w t

/-- Match of the pattern `\b<escaped word>\b` anchored at position `i`. -/
def matchWholeAt (w t : List Char) (i : Nat) : Bool :=
  matchAt w (t.drop i) && boundary t i && boundary t (i + w.length)

/-- Embeds `re.search(r"\b" + re.escape(word) + r"\b", text)`: search for
a whole-word occurrence anywhere in `t`. -/
def searchWhole (w t : List Char) : Bool :=
  (List.range (t.length + 1)).any (fun i => matchWholeAt w t i)

/-- Embeds `BadWordsCache.contains` (main.py:47-53): lower-case the text,
then test whether any cached word occurs as a whole-word match. -/
def containsBadWords (words : List (List Char)) (text : List Char) : Bool :=
  words.any (fun w => searchWhole w (pyLower text))

/-- Embeds the character class `[a-z]` of the URL regex. -/
def isLowerAlphaChar (c : Char) : Bool := 'a' ≤ c && c ≤ 'z'

/-- Embeds the character class `[a-zA-Z0-9-]` of the URL regex. -/
def isDomainChar (c : Char) : Bool := c.isAlphanum || c == '-'

/-- Literal alternatives of the URL regex at the head of `rest`:
`https?://`, `t.me/`, `@`, `www.` (the trailing `[^\s]*` always
matches). -/
def literalAltAt (rest : List Char) : Bool :=
  matchAt "http://".toList rest || matchAt "https://".toList rest ||
  matchAt "t.me/".toList rest || matchAt "@".toList rest ||
  matchAt "www.".toList rest

/-- Bare-domain alternative `[a-zA-Z0-9-]+\.[a-z]{2,}` of the URL regex at
the head of `rest`: a nonempty run of domain characters, a dot, and at
least two lowercase letters.  Because `.` is not a domain character, the
run length of a successful match is forced to be the maximal run. -/
def domainAltAt (rest : List Char) : Bool :=
  let run := (rest.takeWhile isDomainChar).length
  decide (1 ≤ run) &&
    (match rest.drop run with
     | '.' :: c1 :: c2 :: _ => isLowerAlphaChar c1 && isLowerAlphaChar c2
     | _ => false)

/-- Embeds `re.search(url_regex, text)` for the pattern of main.py:389:
`(?:https?://|t\.me/|@|www\.|[a-zA-Z0-9-]+\.[a-z]\x7b2,\x7d)[^\s]*`. -/
def urlSearch (t : List Char) : Bool :=
  (List.range (t.length + 1)).any
    (fun i => literalAltAt (t.drop i) || domainAltAt (t.drop i))

/-! ## Word cache reload (main.py:39-45 and db_client.py:115-124) -/

/-- Embeds `Database.get_bad_words` (db_client.py:115-124): on a
successful fetch, every row's word is lower-cased; when the fetch raises,
the `except` branch logs and returns the empty list (the failure is not
re-raised). -/
def getBadWords (fetch : Except Unit (List (List Char))) : List (List Char) :=
  match fetch with
  | Except.ok rows => rows.map pyLower
  | Except.error _ => []

/-- Embeds `BadWordsCache.reload` (main.py:39-45): under the lock it
assigns `self._words = await db.get_bad_words()` unconditionally and
returns the new length.  The result is `(returned count, cache after the
call)`; `_old` is the snapshot held before the call, which the
assignment discards unconditionally. -/
def reloadCache (fetch : Except Unit (List (List Char)))
    (_old : List (List Char)) : Nat × List (List Char) :=
  let words := getBadWords fetch
  (words.length, words)

/-! ## Escalation engine (ModerationService.apply_sanction, main.py:335-381) -/

/-- Chat-transport actions issued during a sanction cycle.  `banUser`
records that the `ban_chat_member` call was issued (the attempt);
`banConfirm` is the ban confirmation message, sent only after a
successful ban; `warnNotice` is the warning message of the warn path;
`sanctionFailDiag` is the diagnostic sent by the `except
TelegramBadRequest` branch. -/
inductive ChatAction where
  | deleteMsg (uid : Nat)
  | banUser (uid : Nat)
  | banConfirm (uid : Nat) (count : Nat)
  | warnNotice (uid : Nat) (count : Nat)
  | sanctionFailDiag (uid : Nat)
deriving DecidableEq

/-- Outcome flags for one sanction cycle: the two store round trips of
`add_warning`, the `ban_chat_member` call, the ban-confirmation send, the
warn-notice send, and the `reset_warnings` store write.  A failing
transport call raises `TelegramBadRequest`, caught by the `except` block
at main.py:369. -/
structure SanctionEnv where
  db : DbEnv
  banOk : Bool
  banSendOk : Bool
  warnSendOk : Bool
  resetOk : Bool

/-- Embeds `ModerationService.apply_sanction` (main.py:335-381).
Administrators return before any effect.  The message delete is always
attempted (its failure is caught separately at main.py:343 and changes
nothing else).  Then `add_warning` runs; if the returned count reaches
`MAX_WARNINGS` the ban is attempted, the confirmation is sent, and only
after a successful confirmation send is `reset_warnings` called (a raise
in `ban_chat_member` or in the confirmation send jumps to the `except`
branch, which sends the diagnostic and never resets).  Below the
threshold the warning notice is sent. -/
def applySanction (cfg : Config) (env : SanctionEnv) (uid : Nat) (s : Store) :
    Store × List ChatAction :=
  if cfg.adminIds.contains uid then (s, [])
  else
    let res := addWarning env.db uid s
    let s1 := res.1
    let warnCount := res.2
    if cfg.maxWarnings ≤ warnCount then
      if env.banOk then
        if env.banSendOk then
          (resetWarnings env.resetOk uid s1,
           [ChatAction.deleteMsg uid, ChatAction.banUser uid,
            ChatAction.banConfirm uid warnCount])
        else
          (s1, [ChatAction.deleteMsg uid, ChatAction.banUser uid,
                ChatAction.sanctionFailDiag uid])
      else
        (s1, [ChatAction.deleteMsg uid, ChatAction.banUser uid,
              ChatAction.sanctionFailDiag uid])
    else
      if env.warnSendOk then
        (s1, [ChatAction.deleteMsg uid, ChatAction.warnNotice uid warnCount])
      else
        (s1, [ChatAction.deleteMsg uid, ChatAction.sanctionFailDiag uid])

/-- Inbound group message as seen by the moderation path: an optional
text body and the sender's id. -/
structure Msg where
  text : Option (List Char)
  fromUserId : Nat

/-- Embeds `ModerationService.check_moderation` (main.py:383-398):
`if not message.text: return` skips messages whose body is absent or the
empty string; otherwise the lowered text is classified first against the
URL pattern and then against the cached forbidden words, and a match is
handed to `apply_sanction`. -/
def checkModeration (cfg : Config) (env : SanctionEnv)
    (cache : List (List Char)) (m : Msg) (s : Store) :
    Store × List ChatAction :=
  match m.text with
  | none => (s, [])
  | some t =>
    if t = [] then (s, [])
    else
      let tl := pyLower t
      if urlSearch tl then applySanction cfg env m.fromUserId s
      else if containsBadWords cache tl then applySanction cfg env m.fromUserId s
      else (s, [])

/-! ## Filters and command gates (filters.py, main.py:289-326) -/

/-- Chat types distinguished by the filters (`message.chat.type`). -/
inductive ChatType where
  | group
  | supergroup
  | privateChat
  | channel
deriving DecidableEq

/-- Sender of a command message (`message.from_user`). -/
structure TgUser where
  id : Nat
  isBot : Bool
deriving DecidableEq

/-- Embeds the `IsAdmin` filter (filters.py:6-12) for a message that has
a sender: membership of the sender's id in the administrator list. -/
def isAdminGate (cfg : Config) (u : TgUser) : Bool :=
  cfg.adminIds.contains u.id

/-- Embeds the `IsGroupChat` filter (filters.py:15-19). -/
def isGroupChatGate (ct : ChatType) : Bool :=
  ct == ChatType.group || ct == ChatType.supergroup

/-- Embeds the `IsPrivateChat` filter (filters.py:22-26). -/
def isPrivateChatGate (ct : ChatType) : Bool :=
  ct == ChatType.privateChat

/-- Embeds the `IsProtectedAdmin` filter (filters.py:29-37): administrator
id AND private chat. -/
def isProtectedAdminGate (cfg : Config) (u : TgUser) (ct : ChatType) : Bool :=
  cfg.adminIds.contains u.id && ct == ChatType.privateChat

/-- Gate of the `/reload` registration (main.py:289): `IsProtectedAdmin()`. -/
def cmdReloadGate (cfg : Config) (u : TgUser) (ct : ChatType) : Bool :=
  isProtectedAdminGate cfg u ct

/-- Gate of the `/addword` registration (main.py:294): `IsProtectedAdmin()`. -/
def cmdAddWordGate (cfg : Config) (u : TgUser) (ct : ChatType) : Bool :=
  isProtectedAdminGate cfg u ct

/-- Gate of the `/removeword` registration (main.py:299): `IsProtectedAdmin()`. -/
def cmdRemoveWordGate (cfg : Config) (u : TgUser) (ct : ChatType) : Bool :=
  isProtectedAdminGate cfg u ct

/-- Gate of the `/stats` registration (main.py:304): `IsProtectedAdmin()`. -/
def cmdStatsGate (cfg : Config) (u : TgUser) (ct : ChatType) : Bool :=
  isProtectedAdminGate cfg u ct

/-- Gate of the `/unwarn` registration (main.py:319): `IsAdmin(),
IsGroupChat()` — administrator id AND group/supergroup chat. -/
def cmdUnwarnGate (cfg : Config) (u : TgUser) (ct : ChatType) : Bool :=
  isAdminGate cfg u && isGroupChatGate ct

/-- Gate of the `/userinfo` registration (main.py:324): `IsAdmin(),
IsGroupChat()`. -/
def cmdUserinfoGate (cfg : Config) (u : TgUser) (ct : ChatType) : Bool :=
  isAdminGate cfg u && isGroupChatGate ct

/-- Embeds `UnwarnCommandHandler.handle` (main.py:206-239) restricted to
its store effect: with no reply target, an administrator target, or a bot
target it only answers and mutates nothing; otherwise it calls
`db.remove_warning` on the target. -/
def handleUnwarn (cfg : Config) (env : DbEnv) (replyFrom : Option TgUser)
    (s : Store) : Store :=
  match replyFrom with
  | none => s
  | some target =>
    if cfg.adminIds.contains target.id then s
    else if target.isBot then s
    else (removeWarning env target.id s).1

/-- Dispatch of the `/unwarn` command: the handler body runs only when
the registered filters accept the message (aiogram dispatch semantics for
main.py:319-321). -/
def unwarnCommand (cfg : Config) (env : DbEnv) (u : TgUser) (ct : ChatType)
    (replyFrom : Option TgUser) (s : Store) : Store :=
  if cmdUnwarnGate cfg u ct then handleUnwarn cfg env replyFrom s else s

/-! ## Activity recorder (middlewares.py, db_client.py:26-45) -/

/-- Store operations of the activity recorder. -/
inductive StoreOp where
  | upsertUser (uid : Nat) (username : Option (List Char))
      (fullName : List Char) (ts : Nat)
deriving DecidableEq

/-- Embeds Python's `a or b` for an optional string: `None` and the empty
string are falsy and select the default. -/
def pyOrDefault (v : Option (List Char)) (dflt : List Char) : List Char :=
  match v with
  | some x => if x = [] then dflt else x
  | none => dflt

/-- Default display name `User_<id>` of db_client.py:33. -/
def defaultName (uid : Nat) : List Char := ("User_" ++ toString uid).toList

/-- Embeds the data row built by `Database.upsert_user`
(db_client.py:26-45) when that coroutine is actually executed: the upsert
of (user id, username, `full_name or "User_<id>"`, timestamp); a failing
store write is caught and swallowed, so executing it never raises. -/
def upsertUserOp (uid : Nat) (username fullName : Option (List Char))
    (ts : Nat) : StoreOp :=
  StoreOp.upsertUser uid username (pyOrDefault fullName (defaultName uid)) ts

/-- Sender data available to the middleware (`event.from_user`). -/
structure InboundUser where
  id : Nat
  username : Option (List Char)
  fullName : Option (List Char)

/-- Embeds `ActivityMiddleware.__call__` (middlewares.py:12-18).  When the
event is a message with a sender, the source evaluates
`db.upsert_user(user_id=..., username=..., full_name=...)` WITHOUT
`await` and without `asyncio.create_task`: in Python this builds a
coroutine object and immediately discards it, so the body of
`upsert_user` never runs and no store operation is executed.  The result
is the pair (the coroutine that was built and dropped, the list of store
operations actually executed during the middleware call). -/
def activityMiddlewareCall (sender : Option InboundUser) (ts : Nat) :
    Option StoreOp × List StoreOp :=
  match sender with
  | some u => (some (upsertUserOp u.id u.username u.fullName ts), [])
  | none => (none, [])

/-! ## Interleaving model of concurrent `add_warning` calls (db_client.py:66-83)

`add_warning` performs two awaited store round trips: the `select` inside
`_get_warning_count` and the `upsert` of `new_count`.  Between the two
awaits the asyncio event loop may run another handler, so two concurrent
violation handlers for the same user interleave at exactly these two
atomic store steps.  A handler is a program counter plus the value its
read returned; the store is the single user's persisted count. -/

structure WHandler where
  pc : Nat
  readVal : Nat
deriving DecidableEq

/-- One atomic store step of `add_warning` (all store reads/writes
succeed here): pc 0 performs the `select` and records the count read;
pc 1 performs the `upsert` of `readVal + 1` (the handler's `new_count`);
a finished handler (pc 2) changes nothing. -/
def wStep (count : Nat) (h : WHandler) : Nat × WHandler :=
  match h.pc with
  | 0 => (count, { pc := 1, readVal := count })
  | 1 => (h.readVal + 1, { pc := 2, readVal := h.readVal })
  | _ => (count, h)

/-- Runs two concurrent `add_warning` handlers under a schedule: `true`
steps handler 1, `false` steps handler 2.  Returns the final stored count
and both handler states. -/
def runSched : List Bool → Nat → WHandler → WHandler → Nat × WHandler × WHandler
  | [], c, h1, h2 => (c, h1, h2)
  | b :: rest, c, h1, h2 =>
    if b then
      let r := wStep c h1
      runSched rest r.1 r.2 h2
    else
      let r := wStep c h2
      runSched rest r.1 h1 r.2

/-! ## Specification-side formulation of whole-word occurrence (for C8) -/

/-- Word-character status of the last character of a string; an empty
string counts as non-word (the position before the start of the text). -/
def lastIsWordChar (l : List Char) : Bool :=
  match l.getLast? with
  | some c => isWordChar c
  | none => false

/-- Word-character status of the first character of a string; an empty
string counts as non-word (the position past the end of the text). -/
def headIsWordChar (l : List Char) : Bool :=
  match l.head? with
  | some c => isWordChar c
  | none => false

/-- Written from the specification's words, to be compared with the
source-side `containsBadWords`: the word `w` occurs in the text `t`
delimited by word boundaries, i.e. `t` decomposes as `pre ++ w ++ post`
such that at each of the two junctions the word-character statuses of the
two sides differ (word-boundary semantics, not raw substring
containment). -/
def occursDelimited (w t : List Char) : Prop :=
  ∃ pre post, t = pre ++ w ++ post ∧
    lastIsWordChar pre ≠ headIsWordChar (w ++ post) ∧
    lastIsWordChar (pre ++ w) ≠ headIsWordChar post

/-! ## Theorems -/

/-- Literal match at the head of a list is exactly a prefix
decomposition. -/
lemma matchAt_iff (w t : List Char) :
    matchAt w t = true ↔ ∃ post, t = w ++ post := by
  induction w generalizing t with
  | nil =>
    simp [matchAt]
  | cons c w ih =>
    cases t with
    | nil =>
      simp [matchAt]
    | cons d t =>
      simp only [matchAt, Bool.and_eq_true, beq_iff_eq, ih, List.cons_append,
        List.cons.injEq]
      constructor
      · rintro ⟨rfl, post, rfl⟩
        exact ⟨post, rfl, rfl⟩
      · rintro ⟨post, rfl, rfl⟩
        exact ⟨rfl, post, rfl⟩

/-- The word-character test at position 0 is the head test. -/
lemma wordCharAt_zero (rest : List Char) :
    wordCharAt rest 0 = headIsWordChar rest := by
  cases rest <;> rfl

/-- The word-character test at the start of the right part of an
append. -/
lemma wordCharAt_append (pre rest : List Char) :
    wordCharAt (pre ++ rest) pre.length = headIsWordChar rest := by
  induction pre with
  | nil =>
    cases rest <;> rfl
  | cons c pre ih =>
    simpa only [List.cons_append, List.length_cons, wordCharAt,
      List.get?_cons_succ] using ih

/-- The word-character test just before the end of the left part of an
append. -/
lemma wordCharAt_append_pred (pre rest : List Char) (h : pre ≠ []) :
    wordCharAt (pre ++ rest) (pre.length - 1) = lastIsWordChar pre := by
  induction pre with
  | nil => exact absurd rfl h
  | cons c pre ih =>
    cases pre with
    | nil => cases rest <;> rfl
    | cons d pre' =>
      have hne : d :: pre' ≠ [] := by simp
      have ih' := ih hne
      simp only [List.cons_append, List.length_cons, Nat.add_sub_cancel] at ih' ⊢
      rw [show lastIsWordChar (c :: d :: pre') = lastIsWordChar (d :: pre') by
            simp [lastIsWordChar, List.getLast?_cons_cons]]
      rw [← ih']
      rfl

/-- The regex word boundary at the junction of an append is the
difference of the word-character statuses of the two sides. -/
lemma boundary_append (pre rest : List Char) :
    boundary (pre ++ rest) pre.length
      = (lastIsWordChar pre != headIsWordChar rest) := by
  unfold boundary
  rcases eq_or_ne pre [] with rfl | h
  · simp [lastIsWordChar, wordCharAt_zero]
  · have hlen : pre.length ≠ 0 := by
      simpa [List.length_eq_zero] using h
    rw [if_neg hlen, wordCharAt_append_pred pre rest h, wordCharAt_append]

/-- Source-side whole-word search coincides with the specification-side
delimited-occurrence predicate. -/
lemma searchWhole_iff (w t : List Char) :
    searchWhole w t = true ↔ occursDelimited w t := by
  unfold searchWhole
  rw [List.any_eq_true]
  constructor
  · rintro ⟨i, hmem, hm⟩
    rw [List.mem_range, Nat.lt_succ_iff] at hmem
    unfold matchWholeAt at hm
    simp only [Bool.and_eq_true] at hm
    obtain ⟨⟨hmatch, hb1⟩, hb2⟩ := hm
    obtain ⟨post, hpost⟩ := (matchAt_iff _ _).1 hmatch
    have hlen : (t.take i).length = i := by
      simp [List.length_take, Nat.min_eq_left hmem]
    have ht : t = t.take i ++ (w ++ post) := by
      rw [← hpost, List.take_append_drop]
    refine ⟨t.take i, post, by simpa [List.append_assoc] using ht, ?_, ?_⟩
    · rw [← bne_iff_ne, ← boundary_append (t.take i) (w ++ post), hlen, ← ht]
      exact hb1
    · rw [← bne_iff_ne, ← boundary_append (t.take i ++ w) post]
      have hlen2 : (t.take i ++ w).length = i + w.length := by
        simp [hlen]
      rw [hlen2, show (t.take i ++ w) ++ post = t by
        rw [List.append_assoc, ← ht]]
      exact hb2
  · rintro ⟨pre, post, rfl, h1, h2⟩
    refine ⟨pre.length, ?_, ?_⟩
    · rw [List.mem_range, Nat.lt_succ_iff]
      simp
    · unfold matchWholeAt
      simp only [Bool.and_eq_true]
      refine ⟨⟨?_, ?_⟩, ?_⟩
      · rw [(matchAt_iff w _)]
        exact ⟨post, by rw [List.append_assoc, List.drop_left]⟩
      · rw [show pre ++ w ++ post = pre ++ (w ++ post) by rw [List.append_assoc],
          boundary_append, bne_iff_ne]
        exact h1
      · have : pre ++ w ++ post = (pre ++ w) ++ post := rfl
        rw [this, show pre.length + w.length = (pre ++ w).length by simp,
          boundary_append, bne_iff_ne]
        exact h2

/-- C1: the claim states that the warning increment is a single atomic
increment-and-return at the store boundary, so that two concurrent
violation handlers for a fresh user leave the stored count at 2.  In the
source, `Database.add_warning` performs a separate `select` read followed
by a separate `upsert` write with an `await` between them; under the
interleaving read1-read2-write1-write2 both handlers read 0 and both
write 1, so after both complete the stored count is 1, not 2 — a lost
update.  Sequential execution of the same two handlers yields 2. -/
theorem addWarning_concurrent_lost_update :
    (runSched [true, true, false, false] 0 ⟨0, 0⟩ ⟨0, 0⟩).1 = 2 ∧
    runSched [true, false, true, false] 0 ⟨0, 0⟩ ⟨0, 0⟩ =
      (1, ⟨2, 0⟩, ⟨2, 0⟩) ∧
    (1 : Nat) ≠ 2 :=
  ⟨rfl, rfl, by decide⟩

/-- C2 counterexample: with a failing store fetch and previous snapshot
containing the single word "spam", `reload` does not propagate any
failure — it returns the count 0 — and the cache afterwards is the empty
list, not the previous snapshot.  This refutes the claim that a failed
fetch leaves the cached snapshot equal to the snapshot before the call. -/
theorem reload_error_overwrites_cache_cex :
    (reloadCache (Except.error ()) ["spam".toList]).2 ≠ ["spam".toList] ∧
    reloadCache (Except.error ()) ["spam".toList] = (0, []) :=
  ⟨by decide, rfl⟩

/-- C2 amended: when the store fetch fails, `get_bad_words` swallows the
error and returns the empty list, so `reload` completes without error,
returns the count 0, and replaces the previous snapshot (whatever it was)
with the empty set. -/
theorem reload_error_returns_empty (prev : List (List Char)) :
    reloadCache (Except.error ()) prev = (0, []) := rfl

/-- C3 counterexample: a reachable run refuting the claim that the
persisted count lies in [0, MAX_WARNINGS] after every completed cycle.
With MAX_WARNINGS = 3 and the ban action failing each time (the
`TelegramBadRequest` branch), four completed cycles of a non-privileged
user starting from count 0 leave the persisted count at 4, which exceeds
the threshold 3 — even though a ban attempt was made in the third and
fourth cycles. -/
theorem sanction_cycle_exceeds_max_cex :
    ((applySanction ⟨[], 3⟩ ⟨⟨true, true⟩, false, true, true, true⟩ 42
      (applySanction ⟨[], 3⟩ ⟨⟨true, true⟩, false, true, true, true⟩ 42
        (applySanction ⟨[], 3⟩ ⟨⟨true, true⟩, false, true, true, true⟩ 42
          (applySanction ⟨[], 3⟩ ⟨⟨true, true⟩, false, true, true, true⟩ 42
            ⟨fun _ => 0⟩).1).1).1).1).warnings 42 = 4 ∧
    ¬ (4 ≤ 3) :=
  ⟨rfl, by decide⟩

/-- C3 amended: after any completed sanction cycle of a non-privileged
user, (a) whenever the count compared against the threshold (the value
returned by `add_warning`) reaches MAX_WARNINGS, a ban attempt is made in
that cycle, and (b) if the persisted count before the cycle is below
MAX_WARNINGS, the persisted count after the cycle is at most
MAX_WARNINGS.  (Without the pre-cycle bound the count can exceed the
threshold, as the counterexample shows.) -/
theorem sanction_cycle_invariant (cfg : Config) (env : SanctionEnv) (uid : Nat)
    (hAdmin : cfg.adminIds.contains uid = false)
    (hMax : 1 ≤ cfg.maxWarnings) :
    (∀ s : Store, cfg.maxWarnings ≤ (addWarning env.db uid s).2 →
        ChatAction.banUser uid ∈ (applySanction cfg env uid s).2) ∧
    (∀ s : Store, s.warnings uid < cfg.maxWarnings →
        (applySanction cfg env uid s).1.warnings uid ≤ cfg.maxWarnings) := by
  have hA : uid ∉ cfg.adminIds := by simpa using hAdmin
  constructor
  · intro s hth
    rcases env with ⟨⟨r, w⟩, b, bs, ws, ro⟩
    cases b <;> cases bs <;>
      simp [applySanction, hA, hth]
  · intro s hpre
    rcases env with ⟨⟨r, w⟩, b, bs, ws, ro⟩
    cases r <;> cases w <;> cases b <;> cases bs <;> cases ws <;> cases ro <;>
      simp [applySanction, addWarning, getWarningCount, setWarnings,
        resetWarnings, hA] <;>
      (try split) <;> (try simp [setWarnings]) <;> omega

/-- C3 witness: concrete instance of the amended invariant — a
non-privileged user at count 2 with MAX_WARNINGS = 3 gets a ban attempt
when the compared count reaches the threshold. -/
theorem sanction_cycle_invariant_witness :
    ChatAction.banUser 42 ∈
      (applySanction ⟨[], 3⟩ ⟨⟨true, true⟩, true, true, true, true⟩ 42
        ⟨fun _ => 2⟩).2 :=
  (sanction_cycle_invariant ⟨[], 3⟩ ⟨⟨true, true⟩, true, true, true, true⟩ 42
      (by decide) (by decide)).1 ⟨fun _ => 2⟩ (by decide)

/-- C4: a non-privileged user whose persisted count is MAX_WARNINGS - 1
who commits one more violation, with the store round trips and the ban,
confirmation send and reset all succeeding, receives a ban (the ban
action is issued) and ends with persisted count 0. -/
theorem boundary_violation_triggers_ban (cfg : Config) (env : SanctionEnv)
    (uid : Nat) (s : Store)
    (hAdmin : cfg.adminIds.contains uid = false)
    (hMax : 1 ≤ cfg.maxWarnings)
    (hPre : s.warnings uid = cfg.maxWarnings - 1)
    (hRead : env.db.readOk = true) (hWrite : env.db.writeOk = true)
    (hBan : env.banOk = true) (hSend : env.banSendOk = true)
    (hReset : env.resetOk = true) :
    ChatAction.banUser uid ∈ (applySanction cfg env uid s).2 ∧
    (applySanction cfg env uid s).1.warnings uid = 0 := by
  have hA : uid ∉ cfg.adminIds := by simpa using hAdmin
  have hcnt : s.warnings uid + 1 = cfg.maxWarnings := by omega
  simp [applySanction, addWarning, getWarningCount, resetWarnings, setWarnings,
    hA, hRead, hWrite, hBan, hSend, hReset, hcnt]

/-- C4 witness: with MAX_WARNINGS = 3, user 42 at count 2 is banned and
ends at count 0. -/
theorem boundary_violation_triggers_ban_witness :
    ChatAction.banUser 42 ∈
      (applySanction ⟨[], 3⟩ ⟨⟨true, true⟩, true, true, true, true⟩ 42
        ⟨fun _ => 2⟩).2 ∧
    (applySanction ⟨[], 3⟩ ⟨⟨true, true⟩, true, true, true, true⟩ 42
        ⟨fun _ => 2⟩).1.warnings 42 = 0 :=
  boundary_violation_triggers_ban ⟨[], 3⟩ ⟨⟨true, true⟩, true, true, true, true⟩
    42 ⟨fun _ => 2⟩ (by decide) (by decide) (by decide) rfl rfl rfl rfl rfl

/-- C5: when the counter is incremented to a value reaching MAX_WARNINGS
but the ban action fails, the persisted counter keeps its incremented
value (it is not reset to 0), the diagnostic message is sent to the chat,
and no ban confirmation is sent. -/
theorem ban_failure_preserves_count (cfg : Config) (env : SanctionEnv)
    (uid : Nat) (s : Store)
    (hAdmin : cfg.adminIds.contains uid = false)
    (hRead : env.db.readOk = true) (hWrite : env.db.writeOk = true)
    (hThresh : cfg.maxWarnings ≤ s.warnings uid + 1)
    (hBan : env.banOk = false) :
    (applySanction cfg env uid s).1.warnings uid = s.warnings uid + 1 ∧
    ChatAction.sanctionFailDiag uid ∈ (applySanction cfg env uid s).2 ∧
    ∀ c : Nat, ChatAction.banConfirm uid c ∉ (applySanction cfg env uid s).2 := by
  have hA : uid ∉ cfg.adminIds := by simpa using hAdmin
  simp [applySanction, addWarning, getWarningCount, setWarnings,
    hA, hRead, hWrite, hBan, hThresh]

/-- C5 witness: with MAX_WARNINGS = 3, user 42 at count 2 whose ban fails
ends at count 3 with the diagnostic sent and no confirmation. -/
theorem ban_failure_preserves_count_witness :
    (applySanction ⟨[], 3⟩ ⟨⟨true, true⟩, false, true, true, true⟩ 42
        ⟨fun _ => 2⟩).1.warnings 42 = 2 + 1 ∧
    ChatAction.sanctionFailDiag 42 ∈
      (applySanction ⟨[], 3⟩ ⟨⟨true, true⟩, false, true, true, true⟩ 42
        ⟨fun _ => 2⟩).2 ∧
    ∀ c : Nat, ChatAction.banConfirm 42 c ∉
      (applySanction ⟨[], 3⟩ ⟨⟨true, true⟩, false, true, true, true⟩ 42
        ⟨fun _ => 2⟩).2 :=
  ban_failure_preserves_count ⟨[], 3⟩ ⟨⟨true, true⟩, false, true, true, true⟩
    42 ⟨fun _ => 2⟩ (by decide) rfl rfl (by decide) rfl

/-- C6 counterexample: the claim states every administrative operation of
§4.5, including the warning adjustment `/unwarn`, runs only for an
administrator in a private, non-group chat.  In the source `/unwarn` is
registered with `IsAdmin(), IsGroupChat()`: an administrator (id 1)
invoking it in a group chat passes the gate, and replying to
non-privileged user 7 whose count is 2 mutates the store to count 1 —
the invocation in a group context is neither refused nor free of state
mutation. -/
theorem unwarn_gate_group_cex :
    cmdUnwarnGate ⟨[1], 3⟩ ⟨1, false⟩ ChatType.group = true ∧
    ChatType.group ≠ ChatType.privateChat ∧
    (unwarnCommand ⟨[1], 3⟩ ⟨true, true⟩ ⟨1, false⟩ ChatType.group
        (some ⟨7, false⟩) ⟨fun u => if u = 7 then 2 else 0⟩).warnings 7 = 1 ∧
    (2 : Nat) ≠ 1 :=
  ⟨rfl, by decide, rfl, by decide⟩

/-- C6 amended: the word-list and top-stats operations (`/reload`,
`/addword`, `/removeword`, `/stats`) execute only for an administrator in
a private chat, while the warning adjustment `/unwarn` and the per-user
stat query `/userinfo` execute only for an administrator in a group or
supergroup chat; an `/unwarn` invocation rejected by its gate performs no
state mutation. -/
theorem admin_gates_characterization (cfg : Config) (u : TgUser)
    (ct : ChatType) :
    (cmdReloadGate cfg u ct = true ↔
        cfg.adminIds.contains u.id = true ∧ ct = ChatType.privateChat) ∧
    (cmdAddWordGate cfg u ct = true ↔
        cfg.adminIds.contains u.id = true ∧ ct = ChatType.privateChat) ∧
    (cmdRemoveWordGate cfg u ct = true ↔
        cfg.adminIds.contains u.id = true ∧ ct = ChatType.privateChat) ∧
    (cmdStatsGate cfg u ct = true ↔
        cfg.adminIds.contains u.id = true ∧ ct = ChatType.privateChat) ∧
    (cmdUnwarnGate cfg u ct = true ↔
        cfg.adminIds.contains u.id = true ∧
          (ct = ChatType.group ∨ ct = ChatType.supergroup)) ∧
    (cmdUserinfoGate cfg u ct = true ↔
        cfg.adminIds.contains u.id = true ∧
          (ct = ChatType.group ∨ ct = ChatType.supergroup)) ∧
    (∀ (env : DbEnv) (r : Option TgUser) (s : Store),
        cmdUnwarnGate cfg u ct = false → unwarnCommand cfg env u ct r s = s) := by
  refine ⟨?_, ?_, ?_, ?_, ?_, ?_, ?_⟩
  · simp [cmdReloadGate, isProtectedAdminGate]
  · simp [cmdAddWordGate, isProtectedAdminGate]
  · simp [cmdRemoveWordGate, isProtectedAdminGate]
  · simp [cmdStatsGate, isProtectedAdminGate]
  · simp [cmdUnwarnGate, isAdminGate, isGroupChatGate]
  · simp [cmdUserinfoGate, isAdminGate, isGroupChatGate]
  · intro env r s h
    simp [unwarnCommand, h]

/-- C6 witness: an administrator invoking `/unwarn` in a private chat
fails its gate and the store is unchanged. -/
theorem admin_gates_characterization_witness :
    unwarnCommand ⟨[1], 3⟩ ⟨true, true⟩ ⟨1, false⟩ ChatType.privateChat none
      ⟨fun _ => 0⟩ = ⟨fun _ => 0⟩ :=
  (admin_gates_characterization ⟨[1], 3⟩ ⟨1, false⟩
      ChatType.privateChat).2.2.2.2.2.2 ⟨true, true⟩ none ⟨fun _ => 0⟩
    (by decide)

/-- C7: the claim states the activity recorder performs an upsert of
(user id, username, display name, timestamp) on every message carrying a
sender.  In the source the middleware builds the `upsert_user` coroutine
without awaiting or scheduling it, so for every inbound message the list
of store operations actually executed is empty — no upsert is performed —
even though the coroutine it builds and drops carries exactly the claimed
row, with the default display name User_5 for sender 5 who has none. -/
theorem activity_middleware_no_store_write :
    (∀ (sender : Option InboundUser) (ts : Nat),
        (activityMiddlewareCall sender ts).2 = []) ∧
    (activityMiddlewareCall
        (some { id := 5, username := none, fullName := none }) 0).1 =
      some (StoreOp.upsertUser 5 none "User_5".toList 0) := by
  constructor
  · intro sender ts
    cases sender <;> rfl
  · rfl

/-- C8: the cache membership test is a case-insensitive whole-word match:
for every cache and text, `contains` is true exactly when some cached
word occurs in the lower-cased text delimited by word boundaries (never
by raw substring containment); in particular, with cached word "class",
"classic" does not match while "class act" does. -/
theorem contains_whole_word_match :
    (∀ (ws : List (List Char)) (text : List Char),
        containsBadWords ws text = true ↔
          ∃ w ∈ ws, occursDelimited w (pyLower text)) ∧
    containsBadWords ["class".toList] "classic".toList = false ∧
    containsBadWords ["class".toList] "class act".toList = true := by
  refine ⟨?_, by decide, by decide⟩
  intro ws text
  unfold containsBadWords
  rw [List.any_eq_true]
  constructor
  · rintro ⟨w, hw, hs⟩
    exact ⟨w, hw, (searchWhole_iff _ _).1 hs⟩
  · rintro ⟨w, hw, ho⟩
    exact ⟨w, hw, (searchWhole_iff _ _).2 ho⟩

/-- C9: when the read inside `add_warning` succeeds and the write fails,
`add_warning` leaves the store unchanged and returns the pre-increment
count — the value read before the attempted write, which the store still
holds — rather than the incremented value. -/
theorem addWarning_write_failure_returns_read_count (env : DbEnv)
    (uid : Nat) (s : Store)
    (hRead : env.readOk = true) (hWrite : env.writeOk = false) :
    (addWarning env uid s).1 = s ∧
    (addWarning env uid s).2 = s.warnings uid := by
  simp [addWarning, getWarningCount, hRead, hWrite]

/-- C9 witness: user 7 at count 5 with a failing write gets 5 back and
the store keeps 5. -/
theorem addWarning_write_failure_returns_read_count_witness :
    (addWarning ⟨true, false⟩ 7 ⟨fun _ => 5⟩).1 = ⟨fun _ => 5⟩ ∧
    (addWarning ⟨true, false⟩ 7 ⟨fun _ => 5⟩).2 = 5 :=
  addWarning_write_failure_returns_read_count ⟨true, false⟩ 7 ⟨fun _ => 5⟩
    rfl rfl

/-- C10: an inbound group message with no text body is never classified
and never sanctioned: the moderation path leaves the store unchanged and
issues no chat action (no deletion, no counter mutation, no
notification). -/
theorem no_text_no_moderation (cfg : Config) (env : SanctionEnv)
    (cache : List (List Char)) (m : Msg) (s : Store)
    (h : m.text = none) :
    checkModeration cfg env cache m s = (s, []) := by
  simp [checkModeration, h]

/-- C10 witness: a text-less message from user 9 produces no effect. -/
theorem no_text_no_moderation_witness :
    checkModeration ⟨[], 3⟩ ⟨⟨true, true⟩, true, true, true, true⟩
      ["spam".toList] ⟨none, 9⟩ ⟨fun _ => 0⟩ = (⟨fun _ => 0⟩, []) :=
  no_text_no_moderation ⟨[], 3⟩ ⟨⟨true, true⟩, true, true, true, true⟩
    ["spam".toList] ⟨none, 9⟩ ⟨fun _ => 0⟩ rfl

end TgBot
